import Mathlib

/-!
Verification of `mast.logging` (file `mast/logging/__init__.py`).

The module is embedded shallowly:

* Python `str.replace`, `os.path.basename` and `os.path.join` (posix) are
  modelled on `List Char` / `String` (`pyReplaceL`, `basenameS`, `pyJoin`).
* The process-wide logger registry of the `logging` package is a function
  `String → Logger`; `logging.getLogger name` is registry lookup, and a
  fresh logger has no handlers, level `0` (NOTSET) and `propagate = true`.
* `logging.handlers.TimedRotatingFileHandler(filename, when, interval)` can
  raise `IOError`; the environment supplies which filenames fail
  (`Env.fails`), together with `MAST_HOME`, the `mastd` flag, the external
  `Timestamp().timestamp` value and `getpass.getuser()`.
* Record emission (`logger.info` / `logger.exception`) is modelled by the
  list of `LogRecord`s returned by the decorator wrapper.
* Python `str(kwargs)` for a keyword-argument dict is modelled by
  `pyDictStr`: keyword names are identifiers, so CPython renders the dict
  as `{'key': <value repr>, ...}`; values are carried as their `repr`
  strings, positional arguments as their `str` forms.
-/

/-- Python `s.replace(old, new)` worker for non-empty `old`, with fuel
(`fuel ≥ s.length` suffices): scan left to right, replacing each
non-overlapping occurrence of `old`. -/
def pyReplaceAux (old new : List Char) : Nat → List Char → List Char
  | _, [] => []
  | 0, s => s
  | Nat.succ fuel, c :: s =>
    if old.isPrefixOf (c :: s) then
      new ++ pyReplaceAux old new fuel (s.drop (old.length - 1))
    else
      c :: pyReplaceAux old new fuel s

/-- Python `s.replace(old, new)` on char lists.  For empty `old`, CPython
inserts `new` before every character and at the end. -/
def pyReplaceL (old new s : List Char) : List Char :=
  match old with
  | [] => new ++ s.flatMap (fun c => c :: new)
  | _ :: _ => pyReplaceAux old new s.length s

/-- Python `s.replace(old, new)` on strings. -/
def pyReplaceS (old new s : String) : String :=
  String.mk (pyReplaceL old.toList new.toList s.toList)

/-- `os.path.basename` (posix): the part after the last slash. -/
def basenameL (s : List Char) : List Char :=
  (s.reverse.takeWhile (fun c => c ≠ '/')).reverse

/-- `os.path.basename` on strings. -/
def basenameS (s : String) : String :=
  String.mk (basenameL s.toList)

/-- The directory part of a path: everything up to and including the last
slash (complement of `basenameS`). -/
def dirPart (s : String) : String :=
  String.mk (s.toList.take (s.toList.length - (basenameL s.toList).length))

/-- `s.startswith(p)` via char lists (kernel-computable). -/
def strStartsWith (s p : String) : Bool :=
  p.toList.isPrefixOf s.toList

/-- `s.endswith(p)` via char lists (kernel-computable). -/
def strEndsWith (s p : String) : Bool :=
  p.toList.reverse.isPrefixOf s.toList.reverse

/-- One step of posix `os.path.join`: absolute `b` restarts the path,
otherwise a separator is inserted unless already present. -/
def pyJoin2 (a b : String) : String :=
  if strStartsWith b "/" then b
  else if a = "" ∨ strEndsWith a "/" then a ++ b
  else a ++ "/" ++ b

/-- posix `os.path.join(a, rest...)`. -/
def pyJoin (a : String) (rest : List String) : String :=
  rest.foldl pyJoin2 a

/-- `mast_home = os.environ["MAST_HOME"] or os.getcwd()` (module line 37).
`os.environ[...]` raises `KeyError` when the variable is absent (modelled
as `Except.error ()`); the `or os.getcwd()` fallback fires only when the
variable is present but is the empty (falsy) string. -/
def mast_home (envMastHome : Option String) (cwd : String) : Except Unit String :=
  match envMastHome with
  | none => Except.error ()
  | some v => Except.ok (if v = "" then cwd else v)

/-- `_format_args(args)`: each positional argument's `str` form, single
quoted, joined by comma+space. -/
def _format_args (args : List String) : String :=
  String.intercalate ", " (args.map (fun a => "\x27" ++ a ++ "\x27"))

/-- CPython `str(kwargs)` for a keyword-argument dict: keys are identifiers
(rendered `'key'`), values are carried as their `repr` strings. -/
def pyDictStr (kwargs : List (String × String)) : String :=
  "\x7b" ++
    String.intercalate ", " (kwargs.map (fun kv => "\x27" ++ kv.1 ++ "\x27: " ++ kv.2)) ++
    "\x7d"

/-- `_format_kwargs(kwargs)`:
`str(kwargs).replace("{", "").replace("}", "").replace(": ", "=")`. -/
def _format_kwargs (kwargs : List (String × String)) : String :=
  pyReplaceS ": " "=" (pyReplaceS "\x7d" "" (pyReplaceS "\x7b" "" (pyDictStr kwargs)))

/-- `_format_arguments(args, kwargs)` (lines 202-224): positional segment if
`args` is non-empty, then `", "` and the keyword segment if `kwargs` is
non-empty (the separator only when `args` was non-empty too). -/
def _format_arguments (args : List String) (kwargs : List (String × String)) : String :=
  let arguments := ""
  let arguments := if args = [] then arguments else arguments ++ _format_args args
  let arguments :=
    if kwargs = [] then arguments
    else (if args = [] then arguments else arguments ++ ", ") ++ _format_kwargs kwargs
  arguments

/-- `_escape(string)` (lines 226-241):
`string.replace("\n", "").replace("\r", "").replace("'", "&apos;").replace('"', "&quot;")`. -/
def _escape (s : String) : String :=
  pyReplaceS "\x22" "&quot;"
    (pyReplaceS "\x27" "&apos;"
      (pyReplaceS "\x0d" ""
        (pyReplaceS "\x0a" "" s)))

/-- The module-level `_format` string: `"; ".join(...)` of the record
fields. -/
def _format : String :=
  String.intercalate "; " [
    "\x27level\x27=\x27%(levelname)s\x27",
    "\x27datetime\x27=\x27%(asctime)s\x27",
    "\x27process_name\x27=\x27%(processName)s\x27",
    "\x27pid\x27=\x27%(process)d\x27",
    "\x27thread\x27=\x27%(thread)d\x27",
    "\x27module\x27=\x27%(module)s\x27",
    "\x27line\x27=\x27%(lineno)d\x27",
    "\x27message\x27=\x27%(message)s\x27"]

/-- A constructed `TimedRotatingFileHandler` after `setFormatter`/`setLevel`:
the target filename, rolling unit (`when`), interval, formatter string and
handler level.  (`backup_count` is never forwarded by the source.) -/
structure Handler where
  filename : String
  rollingWhen : String
  interval : Int
  fmt : String
  hlevel : Int
deriving DecidableEq, Repr

/-- A `logging.Logger`: attached handlers, effective level, propagate flag. -/
structure Logger where
  handlers : List Handler
  llevel : Int
  propagate : Bool
deriving DecidableEq, Repr

/-- External inputs of the module: `MAST_HOME` (already resolved), whether
`"mastd" in os.environ`, `Timestamp().timestamp`, `getpass.getuser()`, and
which filenames make `TimedRotatingFileHandler` raise `IOError`. -/
structure Env where
  mastHome : String
  mastdMode : Bool
  timestamp : String
  user : String
  fails : String → Bool

/-- The `logging.conf` values read at import (external collaborator,
already type-coerced). -/
structure Config where
  level : Int
  rolling_unit : String
  rolling_interval : Int
  propagate : Bool
  backup_count : Int

/-- `TimedRotatingFileHandler(filename, when=, interval=)` followed by
`setFormatter(_formatter)` and `setLevel(level)`; raises `IOError`
(`Except.error ()`) exactly on the filenames `Env.fails` marks. -/
def mkHandler (env : Env) (filename whenU : String) (interval level : Int)
    (fmt : String) : Except Unit Handler :=
  if env.fails filename then Except.error ()
  else Except.ok ⟨filename, whenU, interval, fmt, level⟩

/-- Registry update: the mutation of the logger registered under `name`. -/
def setLogger (st : String → Logger) (name : String) (lg : Logger) :
    String → Logger :=
  fun m => if m = name then lg else st m

/-- A fresh registry: `logging.getLogger` yields loggers with no handlers,
level NOTSET (0) and `propagate = True`. -/
def initialRegistry : String → Logger :=
  fun _ => { handlers := [], llevel := 0, propagate := true }

/-- Default target path (lines 126-141): `<name>.log` joined under
`mast_home/var/log/mastd` when `"mastd" in os.environ`, else
`mast_home/var/log`. -/
def defaultFilename (mastHome : String) (mastdMode : Bool) (name : String) : String :=
  if mastdMode then pyJoin mastHome ["var", "log", "mastd", name ++ ".log"]
  else pyJoin mastHome ["var", "log", name ++ ".log"]

/-- The fallback filename of the `except IOError` branch (lines 156-163):
`filename.replace(fname, "{}-{}-{}".format(Timestamp().timestamp, getuser(), fname))`
where `fname = os.path.basename(filename)`.  Note this is a *replace-all*
over the whole path. -/
def fallbackFilename (ts user filename : String) : String :=
  let fname := basenameS filename
  pyReplaceS fname (ts ++ "-" ++ user ++ "-" ++ fname) filename

/-- `make_logger` (lines 59-168) as a registry transformer.  Returns the
updated registry together with the produced logger, or `Except.error ()`
when both the primary and the fallback handler construction raise.  The
cached-return path (`if _logger.handlers: if len(_logger.handlers) >= 1`)
returns the registered logger untouched. -/
def make_logger (env : Env) (st : String → Logger) (name : String)
    (level : Int) (fmt : String) (filename : Option String)
    (whenU : String) (interval : Int) (propagate : Bool) ( backup_count : Int) :
    (String → Logger) × Except Unit Logger :=
  let lg0 := st name
  if lg0.handlers = [] then
    let lg1 := { lg0 with llevel := level }
    let fname := filename.getD (defaultFilename env.mastHome env.mastdMode name)
    match mkHandler env fname whenU interval level fmt with
    | Except.ok h =>
      let lg2 := { lg1 with handlers := lg1.handlers ++ [h], propagate := propagate }
      (setLogger st name lg2, Except.ok lg2)
    | Except.error _ =>
      match mkHandler env (fallbackFilename env.timestamp env.user fname)
          whenU interval level fmt with
      | Except.ok h =>
        let lg2 := { lg1 with handlers := lg1.handlers ++ [h], propagate := propagate }
        (setLogger st name lg2, Except.ok lg2)
      | Except.error e => (setLogger st name lg1, Except.error e)
  else
    (st, Except.ok lg0)

/-- The module-level statements `logger = make_logger("mast")` and
`dp_logger = make_logger("DataPower")` run at import with the config
defaults, starting from a fresh registry. -/
def moduleInit (env : Env) (cfg : Config) :
    (String → Logger) × Except Unit (Logger × Logger) :=
  let r1 := make_logger env initialRegistry "mast" cfg.level _format none
    cfg.rolling_unit cfg.rolling_interval cfg.propagate cfg.backup_count
  match r1.2 with
  | Except.error e => (r1.1, Except.error e)
  | Except.ok lg1 =>
    let r2 := make_logger env r1.1 "DataPower" cfg.level _format none
      cfg.rolling_unit cfg.rolling_interval cfg.propagate cfg.backup_count
    match r2.2 with
    | Except.error e => (r2.1, Except.error e)
    | Except.ok lg2 => (r2.1, Except.ok (lg1, lg2))

/-- A record emitted to a sink: `logger.info` emits `info`,
`logger.exception` emits an error-level record. -/
inductive LogRecord where
  | info (msg : String)
  | error (msg : String)
deriving DecidableEq, Repr

/-- The body of `_wrapper` (lines 270-291).  `logger = make_logger(name)`
obtains the sink (its registry effect is modelled by `make_logger` above);
record emission is modelled by the returned list.  The wrapped function is
`f`, its arguments already rendered (`argsS` as `str` forms, `kwargsS` as
identifier keys with `repr` values), and `reprF` is Python `repr` on the
result. -/
def logged_wrapper {ε β : Type} (funcName : String) (argsS : List String)
    (kwargsS : List (String × String)) (f : Unit → Except ε β)
    (reprF : β → String) : Except ε β × List LogRecord :=
  let arguments := _format_arguments argsS kwargsS
  let entry := LogRecord.info
    ("Attempting to execute " ++ funcName ++ "(" ++ arguments ++ ")")
  match f () with
  | Except.error e =>
    (Except.error e,
     [entry,
      LogRecord.error
        ("An unhandled exception occurred while attempting to execute " ++
          funcName ++ "(" ++ arguments ++ ")")])
  | Except.ok result =>
    (Except.ok result,
     [entry,
      LogRecord.info
        ("Finished execution of " ++ funcName ++ "(" ++ arguments ++
          "). Result: " ++ _escape (reprF result))])

/-- Spec-side substitution table for `_escape`: drop CR/LF, map the quotes
to their entities, keep everything else. -/
def escTable (c : Char) : List Char :=
  if c = '\x0a' then []
  else if c = '\x0d' then []
  else if c = '\x27' then "&apos;".toList
  else if c = '\x22' then "&quot;".toList
  else [c]

/-- Spec-side argument formatting: positional segment, separating `", "`
exactly when both segments are non-empty, empty string when both are
empty. -/
def specArgumentString (args : List String) (kwargs : List (String × String)) : String :=
  let pos := String.intercalate ", " (args.map (fun a => "\x27" ++ a ++ "\x27"))
  let kw := pyReplaceS ": " "=" (pyReplaceS "\x7d" "" (pyReplaceS "\x7b" "" (pyDictStr kwargs)))
  if args ≠ [] ∧ kwargs ≠ [] then pos ++ ", " ++ kw
  else if args ≠ [] then pos
  else if kwargs ≠ [] then kw
  else ""

/-- Replacement of a single character by a fixed string, per character. -/
def repChar (a : Char) (new : List Char) (c : Char) : List Char :=
  if c = a then new else [c]

example : pyReplaceS "a" "T-u-a" "a/a" = "T-u-a/T-u-a" := by decide
example : basenameS "a/a" = "a" := by decide
example : dirPart "a/a" = "a/" := by decide
example : fallbackFilename "T" "u" "a/a" = "T-u-a/T-u-a" := by decide
example : defaultFilename "/h" false "mast" = "/h/var/log/mast.log" := by decide
example : defaultFilename "/h" true "mast" = "/h/var/log/mastd/mast.log" := by decide
example : _escape "a\x0ab\x27c" = "ab&apos;c" := by decide

lemma string_mk_toList (s : String) : String.mk s.toList = s := by
  cases s; rfl

lemma contains_eq_false_of_not_mem (l : List Char) (a : Char) (h : a ∉ l) :
    l.contains a = false := by
  simp [List.contains, h]

lemma string_eq_of_toList_eq {s t : String} (h : s.toList = t.toList) : s = t := by
  cases s; cases t; exact congrArg String.mk h

lemma str_empty_append (s : String) : "" ++ s = s := by
  cases s; rfl

lemma pyReplaceAux_single (a : Char) (new : List Char) :
    ∀ (fuel : Nat) (s : List Char), s.length ≤ fuel →
      pyReplaceAux [a] new fuel s = s.flatMap (repChar a new) := by
  intro fuel
  induction fuel with
  | zero =>
    intro s h
    have hs : s = [] := List.eq_nil_of_length_eq_zero (Nat.le_zero.mp h)
    subst hs
    rfl
  | succ n ih =>
    intro s h
    cases s with
    | nil => rfl
    | cons c t =>
      have ht : t.length ≤ n := by
        have := Nat.succ_le_succ_iff.mp (by simpa using h)
        exact this
      by_cases hc : a = c
      · subst hc
        simp [pyReplaceAux, List.isPrefixOf, ih t ht, repChar]
      · have hc2 : ¬ c = a := fun hx => hc hx.symm
        simp [pyReplaceAux, List.isPrefixOf, hc, hc2, ih t ht, repChar]

lemma pyReplaceL_single (a : Char) (new s : List Char) :
    pyReplaceL [a] new s = s.flatMap (repChar a new) := by
  show pyReplaceAux [a] new s.length s = _
  exact pyReplaceAux_single a new s.length s (Nat.le_refl _)

lemma flatMap_congr_fun {α β : Type} (l : List α) (f g : α → List β)
    (h : ∀ c, f c = g c) : l.flatMap f = l.flatMap g := by
  induction l with
  | nil => rfl
  | cons c t ih => simp [List.flatMap_cons, h c, ih]

lemma escStep (c : Char) :
    (((repChar '\x0a' [] c).flatMap (repChar '\x0d' [])).flatMap
        (repChar '\x27' "&apos;".toList)).flatMap (repChar '\x22' "&quot;".toList)
      = escTable c := by
  by_cases h1 : c = '\x0a'
  · subst h1; decide
  by_cases h2 : c = '\x0d'
  · subst h2; decide
  by_cases h3 : c = '\x27'
  · subst h3; decide
  by_cases h4 : c = '\x22'
  · subst h4; decide
  simp [repChar, escTable, h1, h2, h3, h4]

lemma flatMap4 (l : List Char) :
    (((l.flatMap (repChar '\x0a' [])).flatMap (repChar '\x0d' [])).flatMap
        (repChar '\x27' "&apos;".toList)).flatMap (repChar '\x22' "&quot;".toList)
      = l.flatMap escTable := by
  induction l with
  | nil => rfl
  | cons c t ih =>
    simp only [List.flatMap_cons, List.flatMap_append]
    rw [ih, escStep]

lemma escape_toList (s : String) :
    (_escape s).toList = s.toList.flatMap escTable := by
  have h0 : (_escape s).toList =
      (((s.toList.flatMap (repChar '\x0a' [])).flatMap (repChar '\x0d' [])).flatMap
          (repChar '\x27' "&apos;".toList)).flatMap (repChar '\x22' "&quot;".toList) := by
    show pyReplaceL ['\x22'] "&quot;".toList
        (pyReplaceL ['\x27'] "&apos;".toList
          (pyReplaceL ['\x0d'] []
            (pyReplaceL ['\x0a'] [] s.toList))) = _
    rw [pyReplaceL_single, pyReplaceL_single, pyReplaceL_single, pyReplaceL_single]
  rw [h0, flatMap4]

lemma escTable_mem_ne (c d : Char) (hd : d ∈ escTable c) :
    d ≠ '\x0a' ∧ d ≠ '\x0d' := by
  unfold escTable at hd
  by_cases h1 : c = '\x0a'
  · simp [h1] at hd
  by_cases h2 : c = '\x0d'
  · simp [h1, h2] at hd
  by_cases h3 : c = '\x27'
  · simp [h1, h2, h3] at hd
    rcases hd with h | h | h | h | h | h <;> subst h <;> exact ⟨by decide, by decide⟩
  by_cases h4 : c = '\x22'
  · simp [h1, h2, h3, h4] at hd
    rcases hd with h | h | h | h | h | h <;> subst h <;> exact ⟨by decide, by decide⟩
  simp [h1, h2, h3, h4] at hd
  subst hd
  exact ⟨h1, h2⟩

lemma escTable_idem (c : Char) : (escTable c).flatMap escTable = escTable c := by
  by_cases h1 : c = '\x0a'
  · subst h1; decide
  by_cases h2 : c = '\x0d'
  · subst h2; decide
  by_cases h3 : c = '\x27'
  · subst h3; decide
  by_cases h4 : c = '\x22'
  · subst h4; decide
  simp [escTable, h1, h2, h3, h4]

lemma make_logger_cached_aux (env : Env) (st : String → Logger) (name : String)
    (level : Int) (fmt : String) (filename : Option String) (whenU : String)
    (interval : Int) (propagate : Bool) ( backup_count : Int)
    (h : (st name).handlers ≠ []) :
    make_logger env st name level fmt filename whenU interval propagate backup_count
      = (st, Except.ok (st name)) := by
  unfold make_logger
  simp [h]

lemma make_logger_ok_aux (env : Env) (st : String → Logger) (name : String)
    (level : Int) (fmt : String) (filename : Option String) (whenU : String)
    (interval : Int) (propagate : Bool) ( backup_count : Int)
    (st2 : String → Logger) (lg : Logger)
    (h : make_logger env st name level fmt filename whenU interval propagate backup_count
          = (st2, Except.ok lg)) :
    st2 name = lg ∧ lg.handlers ≠ [] ∧ ∀ m, m ≠ name → st2 m = st m := by
  unfold make_logger at h
  by_cases hc : (st name).handlers = []
  · simp only [hc, if_true, reduceIte] at h
    cases hF : mkHandler env
        (filename.getD (defaultFilename env.mastHome env.mastdMode name))
        whenU interval level fmt with
    | ok hh =>
      rw [hF] at h
      simp only [Prod.mk.injEq, Except.ok.injEq] at h
      obtain ⟨hst, hlg⟩ := h
      subst hst; subst hlg
      refine ⟨by simp [setLogger], ?_, ?_⟩
      · simp [hc]
      · intro m hm; simp [setLogger, hm]
    | error e1 =>
      rw [hF] at h
      cases hF2 : mkHandler env
          (fallbackFilename env.timestamp env.user
            (filename.getD (defaultFilename env.mastHome env.mastdMode name)))
          whenU interval level fmt with
      | ok hh =>
        rw [hF2] at h
        simp only [Prod.mk.injEq, Except.ok.injEq] at h
        obtain ⟨hst, hlg⟩ := h
        subst hst; subst hlg
        refine ⟨by simp [setLogger], ?_, ?_⟩
        · simp [hc]
        · intro m hm; simp [setLogger, hm]
      | error e2 =>
        rw [hF2] at h
        simp only [Prod.mk.injEq] at h
        exact absurd h.2 (by simp)
  · simp only [hc, if_false, reduceIte] at h
    simp only [Prod.mk.injEq, Except.ok.injEq] at h
    obtain ⟨hst, hlg⟩ := h
    subst hst; subst hlg
    exact ⟨rfl, hc, fun m _ => rfl⟩

/-- C1: if a sink already exists for `name` with at least one attached
handler, any later `make_logger` call for `name` returns that sink and the
registry unchanged; level, format, filename, rotation unit, rotation
interval, propagate and backup count of the later call are all ignored
(universally quantified and absent from the result), so the configuration
stays that of the first call. -/
theorem make_logger_idempotent_cached (env : Env) (st : String → Logger)
    (name : String) (level : Int) (fmt : String) (filename : Option String)
    (whenU : String) (interval : Int) (propagate : Bool) ( backup_count : Int)
    (h : (st name).handlers ≠ []) :
    make_logger env st name level fmt filename whenU interval propagate backup_count
      = (st, Except.ok (st name)) :=
  make_logger_cached_aux env st name level fmt filename whenU interval propagate
    backup_count h

/-- Witness for C1 at a concrete registry holding a configured sink. -/
theorem make_logger_idempotent_cached_witness :
    ((fun _ : String => Logger.mk [Handler.mk "f.log" "D" 1 "" 0] 0 true) "m").handlers
        ≠ [] ∧
    make_logger (Env.mk "/h" false "T" "u" (fun _ => false))
        (fun _ : String => Logger.mk [Handler.mk "f.log" "D" 1 "" 0] 0 true)
        "m" 42 "other" (some "other.log") "H" 7 false 9
      = ((fun _ : String => Logger.mk [Handler.mk "f.log" "D" 1 "" 0] 0 true),
         Except.ok ((fun _ : String => Logger.mk [Handler.mk "f.log" "D" 1 "" 0] 0 true) "m")) :=
  ⟨by decide,
   make_logger_idempotent_cached (Env.mk "/h" false "T" "u" (fun _ => false))
     (fun _ : String => Logger.mk [Handler.mk "f.log" "D" 1 "" 0] 0 true)
     "m" 42 "other" (some "other.log") "H" 7 false 9 (by decide)⟩

/-- C2 counterexample: the fallback name is built with a replace-all of the
basename over the whole path (`filename.replace(fname, ...)`), so for
`a/a` the result `T-u-a/T-u-a` is NOT `<timestamp>-<user>-<basename>`
inside the original directory as the claim states. -/
theorem fallback_filename_not_same_directory :
    fallbackFilename "T" "u" "a/a" ≠
      dirPart "a/a" ++ ("T" ++ "-" ++ "u" ++ "-" ++ basenameS "a/a") := by decide

/-- C2 (amended): on an `IOError` for the primary filename, `make_logger`
retries exactly once with `fallbackFilename` (replace-all of the basename
by `<timestamp>-<user>-<basename>` over the path) and returns that sink;
if the retry also fails the error propagates and no further retry is
attempted. -/
theorem make_logger_fallback_retry_once (env : Env) (st : String → Logger)
    (name : String) (level : Int) (fmt : String) (filename : Option String)
    (whenU : String) (interval : Int) (propagate : Bool) ( backup_count : Int)
    (h0 : (st name).handlers = [])
    (h1 : env.fails (filename.getD (defaultFilename env.mastHome env.mastdMode name))
        = true) :
    make_logger env st name level fmt filename whenU interval propagate backup_count
      = (if env.fails (fallbackFilename env.timestamp env.user
              (filename.getD (defaultFilename env.mastHome env.mastdMode name))) then
          (setLogger st name { st name with llevel := level }, Except.error ())
         else
          (setLogger st name
            { handlers := (st name).handlers ++
                [Handler.mk
                  (fallbackFilename env.timestamp env.user
                    (filename.getD (defaultFilename env.mastHome env.mastdMode name)))
                  whenU interval fmt level],
              llevel := level, propagate := propagate },
           Except.ok
            { handlers := (st name).handlers ++
                [Handler.mk
                  (fallbackFilename env.timestamp env.user
                    (filename.getD (defaultFilename env.mastHome env.mastdMode name)))
                  whenU interval fmt level],
              llevel := level, propagate := propagate })) := by
  unfold make_logger mkHandler
  simp only [h0, h1, reduceIte]
  by_cases hf : env.fails (fallbackFilename env.timestamp env.user
      (filename.getD (defaultFilename env.mastHome env.mastdMode name))) <;>
    simp [hf]

/-- Witness for C2 with a primary filename that fails and a fallback that
succeeds. -/
theorem make_logger_fallback_retry_once_witness :
    ((fun _ : String => Logger.mk [] 0 true) "m").handlers = [] ∧
    (Env.mk "/h" false "T" "u" (fun s => s == "x.log")).fails
        ((some "x.log").getD (defaultFilename "/h" false "m")) = true ∧
    make_logger (Env.mk "/h" false "T" "u" (fun s => s == "x.log"))
        (fun _ : String => Logger.mk [] 0 true) "m" 1 "fmt" (some "x.log") "D" 2 false 3
      = (if (Env.mk "/h" false "T" "u" (fun s => s == "x.log")).fails
              (fallbackFilename "T" "u"
                ((some "x.log").getD (defaultFilename "/h" false "m"))) then
          (setLogger (fun _ : String => Logger.mk [] 0 true) "m"
            { (fun _ : String => Logger.mk [] 0 true) "m" with llevel := 1 },
           Except.error ())
         else
          (setLogger (fun _ : String => Logger.mk [] 0 true) "m"
            { handlers := ((fun _ : String => Logger.mk [] 0 true) "m").handlers ++
                [Handler.mk
                  (fallbackFilename "T" "u"
                    ((some "x.log").getD (defaultFilename "/h" false "m")))
                  "D" 2 "fmt" 1],
              llevel := 1, propagate := false },
           Except.ok
            { handlers := ((fun _ : String => Logger.mk [] 0 true) "m").handlers ++
                [Handler.mk
                  (fallbackFilename "T" "u"
                    ((some "x.log").getD (defaultFilename "/h" false "m")))
                  "D" 2 "fmt" 1],
              llevel := 1, propagate := false })) :=
  ⟨rfl, by decide,
   make_logger_fallback_retry_once (Env.mk "/h" false "T" "u" (fun s => s == "x.log"))
     (fun _ : String => Logger.mk [] 0 true) "m" 1 "fmt" (some "x.log") "D" 2 false 3
     rfl (by decide)⟩

/-- C3 counterexample: the keyword segment keeps the quotes of the dict
display, so the claimed output with a bare `k=v` is not produced. -/
theorem format_arguments_example_not_unquoted :
    _format_arguments ["1", "x"] [("k", "\x27v\x27")] ≠
      "\x271\x27, \x27x\x27, k=v" := by decide

/-- C3 (amended): `_format_arguments((1, "x"), ("k": "v"))` produces the
string with the keyword pair rendered as quoted repr forms, namely
`'1', 'x', 'k'='v'`. -/
theorem format_arguments_example_quoted :
    _format_arguments ["1", "x"] [("k", "\x27v\x27")] =
      "\x271\x27, \x27x\x27, \x27k\x27=\x27v\x27" := by decide

/-- C4 (code bug): the claim says `<home>` falls back to the current
working directory when the base-directory variable is unset, but the code
indexes `os.environ` directly, so an absent `MAST_HOME` raises `KeyError`
at import; the `or os.getcwd()` fallback (which shows the claimed intent)
fires only for a present-but-empty value.  The default-path derivation
itself is as claimed. -/
theorem mast_home_missing_env_is_error :
    mast_home none "/cwd" = Except.error () ∧
    mast_home (some "") "/cwd" = Except.ok "/cwd" ∧
    mast_home (some "/opt/mast") "/cwd" = Except.ok "/opt/mast" ∧
    defaultFilename "/h" true "mast" = "/h/var/log/mastd/mast.log" ∧
    defaultFilename "/h" false "mast" = "/h/var/log/mast.log" :=
  ⟨rfl, rfl, rfl, by decide, by decide⟩

/-- C5: when the wrapped function returns normally, the wrapper emits
exactly two informational records in order (entry, then exit with the
escaped result) and returns the result of the function unchanged. -/
theorem logged_wrapper_success {ε β : Type} (funcName : String)
    (argsS : List String) (kwargsS : List (String × String))
    (f : Unit → Except ε β) (reprF : β → String) (r : β)
    (h : f () = Except.ok r) :
    logged_wrapper funcName argsS kwargsS f reprF =
      (Except.ok r,
       [LogRecord.info ("Attempting to execute " ++ funcName ++ "(" ++
          _format_arguments argsS kwargsS ++ ")"),
        LogRecord.info ("Finished execution of " ++ funcName ++ "(" ++
          _format_arguments argsS kwargsS ++ "). Result: " ++
          _escape (reprF r))]) := by
  unfold logged_wrapper
  rw [h]

/-- Witness for C5 on a function returning `3`. -/
theorem logged_wrapper_success_witness :
    (fun _ : Unit => (Except.ok 3 : Except Unit Nat)) () = Except.ok 3 ∧
    logged_wrapper "f" [] [] (fun _ : Unit => (Except.ok 3 : Except Unit Nat))
        (fun n => toString n) =
      (Except.ok 3,
       [LogRecord.info ("Attempting to execute " ++ "f" ++ "(" ++
          _format_arguments [] [] ++ ")"),
        LogRecord.info ("Finished execution of " ++ "f" ++ "(" ++
          _format_arguments [] [] ++ "). Result: " ++
          _escape (toString (3 : Nat)))]) :=
  ⟨rfl,
   logged_wrapper_success "f" [] [] (fun _ : Unit => (Except.ok 3 : Except Unit Nat))
     (fun n => toString n) 3 rfl⟩

/-- C6: when the wrapped function raises, the wrapper emits the entry
record and one error-level record with the fixed message, and propagates
the very same exception value. -/
theorem logged_wrapper_exception {ε β : Type} (funcName : String)
    (argsS : List String) (kwargsS : List (String × String))
    (f : Unit → Except ε β) (reprF : β → String) (e : ε)
    (h : f () = Except.error e) :
    logged_wrapper funcName argsS kwargsS f reprF =
      (Except.error e,
       [LogRecord.info ("Attempting to execute " ++ funcName ++ "(" ++
          _format_arguments argsS kwargsS ++ ")"),
        LogRecord.error ("An unhandled exception occurred while attempting to execute "
          ++ funcName ++ "(" ++ _format_arguments argsS kwargsS ++ ")")]) := by
  unfold logged_wrapper
  rw [h]

/-- Witness for C6 on a function that raises. -/
theorem logged_wrapper_exception_witness :
    (fun _ : Unit => (Except.error () : Except Unit Nat)) () = Except.error () ∧
    logged_wrapper "f" [] [] (fun _ : Unit => (Except.error () : Except Unit Nat))
        (fun n => toString n) =
      (Except.error (),
       [LogRecord.info ("Attempting to execute " ++ "f" ++ "(" ++
          _format_arguments [] [] ++ ")"),
        LogRecord.error ("An unhandled exception occurred while attempting to execute "
          ++ "f" ++ "(" ++ _format_arguments [] [] ++ ")")]) :=
  ⟨rfl,
   logged_wrapper_exception "f" [] [] (fun _ : Unit => (Except.error () : Except Unit Nat))
     (fun n => toString n) () rfl⟩

/-- C7: `_escape` is total, its output equals the character-wise
substitution table (CR and LF dropped, the single quote mapped to
`&apos;`, the double quote mapped to `&quot;`, all other characters kept
in order), and the output contains no LF and no CR. -/
theorem escape_total_and_table (s : String) :
    _escape s = String.mk (s.toList.flatMap escTable) ∧
    (_escape s).toList.contains '\x0a' = false ∧
    (_escape s).toList.contains '\x0d' = false := by
  refine ⟨?_, ?_, ?_⟩
  · exact string_eq_of_toList_eq (escape_toList s)
  · have hmem : ('\x0a' : Char) ∉ (_escape s).toList := by
      rw [escape_toList]
      intro hm
      obtain ⟨c, _, hd⟩ := List.mem_flatMap.mp hm
      exact (escTable_mem_ne c _ hd).1 rfl
    exact contains_eq_false_of_not_mem _ _ hmem
  · have hmem : ('\x0d' : Char) ∉ (_escape s).toList := by
      rw [escape_toList]
      intro hm
      obtain ⟨c, _, hd⟩ := List.mem_flatMap.mp hm
      exact (escTable_mem_ne c _ hd).2 rfl
    exact contains_eq_false_of_not_mem _ _ hmem

/-- C8: `_escape` is idempotent. -/
theorem escape_idempotent (s : String) : _escape (_escape s) = _escape s := by
  apply string_eq_of_toList_eq
  rw [escape_toList, escape_toList, List.flatMap_assoc]
  exact flatMap_congr_fun _ _ _ escTable_idem

/-- C9: `_format_arguments` equals the spec-side description: quoted
positional forms joined by comma+space, then the keyword segment from the
dict display with braces stripped and colon-space turned into `=`, the
separating comma+space appearing exactly when both segments are non-empty,
and the empty string when both are empty. -/
theorem format_arguments_spec (args : List String)
    (kwargs : List (String × String)) :
    _format_arguments args kwargs = specArgumentString args kwargs := by
  unfold _format_arguments specArgumentString _format_args _format_kwargs
  by_cases ha : args = [] <;> by_cases hk : kwargs = [] <;>
    simp [ha, hk, str_empty_append]

/-- C10: when the import-time construction succeeds, the registry holds
sinks with attached handlers for `mast` and `DataPower`, and every
subsequent factory call for `mast` hits the cache, ignoring all of its
parameters. -/
theorem moduleInit_registers (env : Env) (cfg : Config) (lg1 lg2 : Logger)
    (h : (moduleInit env cfg).2 = Except.ok (lg1, lg2)) :
    ((moduleInit env cfg).1 "mast").handlers ≠ [] ∧
    ((moduleInit env cfg).1 "DataPower").handlers ≠ [] ∧
    ∀ (level : Int) (fmt : String) (filename : Option String) (whenU : String)
      (interval : Int) (propagate : Bool) ( backup_count : Int),
      make_logger env ((moduleInit env cfg).1) "mast" level fmt filename whenU
          interval propagate backup_count
        = ((moduleInit env cfg).1, Except.ok ((moduleInit env cfg).1 "mast")) := by
  unfold moduleInit at h ⊢
  cases h1 : (make_logger env initialRegistry "mast" cfg.level _format none
      cfg.rolling_unit cfg.rolling_interval cfg.propagate cfg.backup_count).2 with
  | error e =>
    simp only [h1] at h
    simp at h
  | ok lgA =>
    cases h2 : (make_logger env
        (make_logger env initialRegistry "mast" cfg.level _format none
          cfg.rolling_unit cfg.rolling_interval cfg.propagate cfg.backup_count).1
        "DataPower" cfg.level _format none
        cfg.rolling_unit cfg.rolling_interval cfg.propagate cfg.backup_count).2 with
    | error e =>
      simp only [h1, h2] at h
      simp at h
    | ok lgB =>
      simp only [h1, h2] at h ⊢
      have e1 : make_logger env initialRegistry "mast" cfg.level _format none
          cfg.rolling_unit cfg.rolling_interval cfg.propagate cfg.backup_count
          = ((make_logger env initialRegistry "mast" cfg.level _format none
              cfg.rolling_unit cfg.rolling_interval cfg.propagate cfg.backup_count).1,
             Except.ok lgA) := by
        rw [← h1]
      obtain ⟨hA1, hA2, hA3⟩ := make_logger_ok_aux _ _ _ _ _ _ _ _ _ _ _ _ e1
      have e2 : make_logger env
          (make_logger env initialRegistry "mast" cfg.level _format none
            cfg.rolling_unit cfg.rolling_interval cfg.propagate cfg.backup_count).1
          "DataPower" cfg.level _format none
          cfg.rolling_unit cfg.rolling_interval cfg.propagate cfg.backup_count
          = ((make_logger env
              (make_logger env initialRegistry "mast" cfg.level _format none
                cfg.rolling_unit cfg.rolling_interval cfg.propagate cfg.backup_count).1
              "DataPower" cfg.level _format none
              cfg.rolling_unit cfg.rolling_interval cfg.propagate cfg.backup_count).1,
             Except.ok lgB) := by
        rw [← h2]
      obtain ⟨hB1, hB2, hB3⟩ := make_logger_ok_aux _ _ _ _ _ _ _ _ _ _ _ _ e2
      have hmast : (make_logger env
          (make_logger env initialRegistry "mast" cfg.level _format none
            cfg.rolling_unit cfg.rolling_interval cfg.propagate cfg.backup_count).1
          "DataPower" cfg.level _format none
          cfg.rolling_unit cfg.rolling_interval cfg.propagate cfg.backup_count).1 "mast"
          = lgA := by
        rw [hB3 "mast" (by decide), hA1]
      refine ⟨?_, ?_, ?_⟩
      · rw [hmast]; exact hA2
      · rw [hB1]; exact hB2
      · intro level fmt filename whenU interval propagate bc
        exact make_logger_cached_aux _ _ _ _ _ _ _ _ _ _ (by rw [hmast]; exact hA2)

/-- Witness for C10 with a fully successful import. -/
theorem moduleInit_registers_witness :
    (moduleInit (Env.mk "/h" false "T" "u" (fun _ => false)) (Config.mk 10 "D" 1 true 5)).2
        = Except.ok
          (Logger.mk [Handler.mk "/h/var/log/mast.log" "D" 1 _format 10] 10 true,
           Logger.mk [Handler.mk "/h/var/log/DataPower.log" "D" 1 _format 10] 10 true) ∧
    (((moduleInit (Env.mk "/h" false "T" "u" (fun _ => false))
        (Config.mk 10 "D" 1 true 5)).1 "mast").handlers ≠ [] ∧
     ((moduleInit (Env.mk "/h" false "T" "u" (fun _ => false))
        (Config.mk 10 "D" 1 true 5)).1 "DataPower").handlers ≠ [] ∧
     make_logger (Env.mk "/h" false "T" "u" (fun _ => false))
        ((moduleInit (Env.mk "/h" false "T" "u" (fun _ => false))
          (Config.mk 10 "D" 1 true 5)).1) "mast" 99 "other" (some "o.log") "H" 2 false 1
       = ((moduleInit (Env.mk "/h" false "T" "u" (fun _ => false))
            (Config.mk 10 "D" 1 true 5)).1,
          Except.ok ((moduleInit (Env.mk "/h" false "T" "u" (fun _ => false))
            (Config.mk 10 "D" 1 true 5)).1 "mast"))) := by
  have h : (moduleInit (Env.mk "/h" false "T" "u" (fun _ => false))
      (Config.mk 10 "D" 1 true 5)).2
      = Except.ok
        (Logger.mk [Handler.mk "/h/var/log/mast.log" "D" 1 _format 10] 10 true,
         Logger.mk [Handler.mk "/h/var/log/DataPower.log" "D" 1 _format 10] 10 true) := by
    rfl
  exact ⟨h, (moduleInit_registers _ _ _ _ h).1, (moduleInit_registers _ _ _ _ h).2.1,
    (moduleInit_registers _ _ _ _ h).2.2 99 "other" (some "o.log") "H" 2 false 1⟩
